import Mathlib

/-!
Shallow embedding of the `express-http-status-handler` library.

The source consists of a closed enumeration `StatusCode` of HTTP status
codes, a catalog `StatusMessages` mapping each code to a default message
(`src/unnamed/part_001`, compiled as `dist/http.status.js`), and a mutable
value object `Status` with populating operations
(`src/src/status.ts`).

JavaScript runtime values relevant to the truthiness-guarded merge helper
`set` are modelled by `JsonValue`; an absent (`undefined`) argument is
modelled by `Option`.
-/

/-- A JSON-like runtime value, used to model payloads.  `null` models the
JavaScript `null`. -/
inductive JsonValue where
  | null : JsonValue
  | bool : Bool → JsonValue
  | num : Int → JsonValue
  | str : String → JsonValue
  | arr : List JsonValue → JsonValue
  | obj : List (String × JsonValue) → JsonValue

/-- JavaScript truthiness of a runtime value: `null`, `false`, `0` and the
empty string are falsy; arrays and objects are always truthy. -/
def jsTruthy : JsonValue → Bool
  | .null => false
  | .bool b => b
  | .num n => n != 0
  | .str s => s != ""
  | .arr _ => true
  | .obj _ => true

/-- Truthiness of an optional value; `none` models `undefined` (absent),
which is falsy. -/
def optTruthy : Option JsonValue → Bool
  | none => false
  | some v => jsTruthy v

/-- Truthiness of an optional string (`undefined` and `""` are falsy). -/
def strOptTruthy : Option String → Bool
  | none => false
  | some s => s != ""

/-- The `StatusCode` enum from `http.status.ts`: a closed set of standard
HTTP status codes. -/
inductive StatusCode where
  | OK | CREATED | ACCEPTED | NON_AUTHORITATIVE | NO_CONTENT
  | RESET_CONTENT | PARTIAL_CONTENT
  | MULTIPLE_CHOICES | MOVED_PERMANENTLY | FOUND | SEE_OTHER
  | NOT_MODIFIED | TEMPORARY_REDIRECT | PERMANENT_REDIRECT
  | BAD_REQUEST | UNAUTHORIZED | PAYMENT_REQUIRED | FORBIDDEN
  | NOT_FOUND | METHOD_NOT_ALLOWED | NOT_ACCEPTABLE
  | PROXY_AUTH_REQUIRED | REQUEST_TIMEOUT | CONFLICT | GONE
  | LENGTH_REQUIRED | PRECONDITION_FAILED | PAYLOAD_TOO_LARGE
  | URI_TOO_LONG | UNSUPPORTED_MEDIA_TYPE | RANGE_NOT_SATISFIABLE
  | EXPECTATION_FAILED | IM_A_TEAPOT | MISDIRECTED_REQUEST
  | UNPROCESSABLE_CONTENT | LOCKED | FAILED_DEPENDENCY | TOO_EARLY
  | UPGRADE_REQUIRED | PRECONDITION_REQUIRED | TOO_MANY_REQUESTS
  | REQUEST_HEADER_FIELDS_TOO_LARGE | UNAVAILABLE_FOR_LEGAL_REASONS
  | INTERNAL_SERVER_ERROR | NOT_IMPLEMENTED | BAD_GATEWAY
  | SERVICE_UNAVAILABLE | GATEWAY_TIMEOUT | HTTP_VERSION_NOT_SUPPORTED
  | VARIANT_ALSO_NEGOTIATES | INSUFFICIENT_STORAGE | LOOP_DETECTED
  | NOT_EXTENDED | NETWORK_AUTH_REQUIRED
  deriving DecidableEq, Fintype

/-- The numeric value of each `StatusCode` enum member, as assigned in
`http.status.ts`. -/
def StatusCode.toCode : StatusCode → Int
  | .OK => 200
  | .CREATED => 201
  | .ACCEPTED => 202
  | .NON_AUTHORITATIVE => 203
  | .NO_CONTENT => 204
  | .RESET_CONTENT => 205
  | .PARTIAL_CONTENT => 206
  | .MULTIPLE_CHOICES => 300
  | .MOVED_PERMANENTLY => 301
  | .FOUND => 302
  | .SEE_OTHER => 303
  | .NOT_MODIFIED => 304
  | .TEMPORARY_REDIRECT => 307
  | .PERMANENT_REDIRECT => 308
  | .BAD_REQUEST => 400
  | .UNAUTHORIZED => 401
  | .PAYMENT_REQUIRED => 402
  | .FORBIDDEN => 403
  | .NOT_FOUND => 404
  | .METHOD_NOT_ALLOWED => 405
  | .NOT_ACCEPTABLE => 406
  | .PROXY_AUTH_REQUIRED => 407
  | .REQUEST_TIMEOUT => 408
  | .CONFLICT => 409
  | .GONE => 410
  | .LENGTH_REQUIRED => 411
  | .PRECONDITION_FAILED => 412
  | .PAYLOAD_TOO_LARGE => 413
  | .URI_TOO_LONG => 414
  | .UNSUPPORTED_MEDIA_TYPE => 415
  | .RANGE_NOT_SATISFIABLE => 416
  | .EXPECTATION_FAILED => 417
  | .IM_A_TEAPOT => 418
  | .MISDIRECTED_REQUEST => 421
  | .UNPROCESSABLE_CONTENT => 422
  | .LOCKED => 423
  | .FAILED_DEPENDENCY => 424
  | .TOO_EARLY => 425
  | .UPGRADE_REQUIRED => 426
  | .PRECONDITION_REQUIRED => 428
  | .TOO_MANY_REQUESTS => 429
  | .REQUEST_HEADER_FIELDS_TOO_LARGE => 431
  | .UNAVAILABLE_FOR_LEGAL_REASONS => 451
  | .INTERNAL_SERVER_ERROR => 500
  | .NOT_IMPLEMENTED => 501
  | .BAD_GATEWAY => 502
  | .SERVICE_UNAVAILABLE => 503
  | .GATEWAY_TIMEOUT => 504
  | .HTTP_VERSION_NOT_SUPPORTED => 505
  | .VARIANT_ALSO_NEGOTIATES => 506
  | .INSUFFICIENT_STORAGE => 507
  | .LOOP_DETECTED => 508
  | .NOT_EXTENDED => 510
  | .NETWORK_AUTH_REQUIRED => 511

/-- The `StatusMessages` record from `http.status.ts`, as an association
list of (numeric code, message) entries, in source order.  At the
JavaScript runtime the record is an object keyed by the numeric enum
values. -/
def statusMessagesList : List (Int × String) :=
  [ (200, "Request succeeded."),
    (201, "Resource created successfully."),
    (202, "Request accepted and is being processed."),
    (203, "Non-authoritative information."),
    (205, "Reset content."),
    (206, "Partial content delivered."),
    (300, "Multiple choices available."),
    (301, "Resource moved permanently."),
    (302, "Resource found at another location."),
    (303, "See another resource."),
    (304, "Not modified since last request."),
    (307, "Temporary redirect."),
    (308, "Permanent redirect."),
    (406, "Not acceptable response format."),
    (407, "Proxy authentication required."),
    (411, "Content length header required."),
    (412, "Precondition failed."),
    (414, "URI too long."),
    (416, "Requested range not satisfiable."),
    (417, "Expectation failed."),
    (418, "I\x27m a teapot."),
    (421, "Request was misdirected."),
    (422, "Unprocessable content."),
    (423, "Resource is locked."),
    (424, "Failed dependency."),
    (425, "Request too early."),
    (426, "Upgrade required."),
    (428, "Precondition required."),
    (431, "Request header fields too large."),
    (451, "Unavailable for legal reasons."),
    (505, "HTTP version not supported."),
    (506, "Variant negotiation failed."),
    (507, "Insufficient storage."),
    (508, "Loop detected."),
    (510, "Not extended."),
    (511, "Network authentication required."),
    (204, "Request succeeded, no content to return."),
    (400, "Bad request. Please check your input."),
    (401, "Unauthorized. Please log in."),
    (402, "Payment required."),
    (403, "Forbidden. You do not have access."),
    (404, "Resource not found."),
    (405, "Method not allowed."),
    (408, "Request timed out."),
    (409, "Conflict. This resource already exists or cannot be processed."),
    (410, "Resource is gone and will not return."),
    (413, "Request payload too large."),
    (415, "Unsupported media type."),
    (429, "Too many requests. Please try again later."),
    (500, "Internal server error."),
    (501, "Feature not implemented."),
    (502, "Bad gateway."),
    (503, "Server is currently unavailable or overloaded."),
    (504, "Server gateway timed out.") ]

/-- Runtime lookup `StatusMessages[n]` for a numeric key `n`; `none`
models the `undefined` produced by a property miss. -/
def statusMessageFor (n : Int) : Option String :=
  statusMessagesList.lookup n

/-- The catalog default message of an enum member (total accessor derived
from the runtime catalog). -/
def defaultMessage (c : StatusCode) : String :=
  (statusMessageFor c.toCode).getD ""

/-- The `IHttpError` interface: a custom error exposing a numeric `code`
and a `message`. -/
structure IHttpError where
  code : Int
  message : String

/-- The `Status` value object: `{code, success, message, payload}`.  The
`payload` field holds `JsonValue.null` for the TypeScript `null`. -/
@[ext]
structure Status where
  code : Int
  success : Bool
  message : String
  payload : JsonValue

/-- The `Status` constructor: defaults to a 400 Bad Request error state
with empty message and null payload. -/
def Status.new : Status :=
  { code := 400, success := false, message := "", payload := JsonValue.null }

/-- The private merge helper `set({message, payload})`: each field is
overwritten only when the supplied value is truthy (`if (message)` /
`if (payload)`). -/
def Status.set (s : Status) (message : Option String)
    (payload : Option JsonValue) : Status :=
  let s1 := if strOptTruthy message then
    { s with message := message.getD "" } else s
  if optTruthy payload then { s1 with payload := payload.getD JsonValue.null }
  else s1

/-- `successStatus(success, payload?)`: sets the code and the success
flag, then merges the catalog message and the optional payload through
`set`.  The code parameter is the numeric enum value the runtime
receives. -/
def Status.successStatus (s : Status) (code : Int)
    (payload : Option JsonValue) : Status :=
  let s1 := { s with code := code, success := true }
  s1.set (statusMessageFor code) payload

/-- `errorStatus(error)`: sets the code, clears the success flag,
unconditionally clears the payload to `null`, then merges the catalog
message through `set`. -/
def Status.errorStatus (s : Status) (code : Int) : Status :=
  let s1 : Status := { s with
    code := code
    success := false
    payload := JsonValue.null }
  s1.set (statusMessageFor code) none

/-- `error(err)`: copies the custom error's code verbatim, clears the
success flag and the payload, and merges the error's message through
`set`. -/
def Status.error (s : Status) (err : IHttpError) : Status :=
  let s1 : Status := { s with
    code := err.code
    success := false
    payload := JsonValue.null }
  s1.set (some err.message) none

/-- `successOK(options)`: sets code 200 and the success flag, then merges
the optionally supplied message and payload through `set`. -/
def Status.successOK (s : Status) (message : Option String)
    (payload : Option JsonValue) : Status :=
  let s1 := { s with code := StatusCode.OK.toCode, success := true }
  s1.set message payload

/-- `genericError(err)`: sets code 500, clears the success flag and the
payload, and merges the generic error's message through `set`. -/
def Status.genericError (s : Status) (msg : String) : Status :=
  let s1 : Status := { s with
    code := StatusCode.INTERNAL_SERVER_ERROR.toCode
    success := false
    payload := JsonValue.null }
  s1.set (some msg) none

/-- `static SUCCESS(success, payload)`: constructs a fresh instance,
applies `successStatus` with the (required) payload, returns it. -/
def Status.SUCCESS (code : Int) (payload : JsonValue) : Status :=
  (Status.new).successStatus code (some payload)

/-- `static ERR(error)`: constructs a fresh instance, applies
`errorStatus`, returns it. -/
def Status.ERR (code : Int) : Status :=
  (Status.new).errorStatus code

/-- Validity of an HTTP status code, per the spec's stated valid range
100–599. -/
def isValidHttpCode (n : Int) : Prop :=
  100 ≤ n ∧ n ≤ 599

instance (n : Int) : Decidable (isValidHttpCode n) := by
  unfold isValidHttpCode; infer_instance

/-! ### Helper lemmas about `Status.set` and the catalog -/

theorem set_code (s : Status) (m : Option String) (p : Option JsonValue) :
    (s.set m p).code = s.code := by
  simp only [Status.set]
  split <;> split <;> rfl

theorem set_success (s : Status) (m : Option String) (p : Option JsonValue) :
    (s.set m p).success = s.success := by
  simp only [Status.set]
  split <;> split <;> rfl

theorem set_message (s : Status) (m : Option String) (p : Option JsonValue) :
    (s.set m p).message = if strOptTruthy m then m.getD "" else s.message := by
  simp only [Status.set]
  split <;> split <;> simp_all

theorem set_payload (s : Status) (m : Option String) (p : Option JsonValue) :
    (s.set m p).payload =
      if optTruthy p then p.getD JsonValue.null else s.payload := by
  simp only [Status.set]
  split <;> split <;> simp_all

theorem msg_lookup_hits (c : StatusCode) :
    statusMessageFor c.toCode = some (defaultMessage c) := by
  cases c <;> rfl

theorem defaultMessage_ne_empty (c : StatusCode) : defaultMessage c ≠ "" := by
  cases c <;> decide

theorem toCode_valid (c : StatusCode) : isValidHttpCode c.toCode := by
  cases c <;> decide

theorem errorStatus_fields (s : Status) (c : StatusCode) :
    s.errorStatus c.toCode =
      { code := c.toCode, success := false, message := defaultMessage c,
        payload := JsonValue.null } := by
  have h1 := msg_lookup_hits c
  have h2 := defaultMessage_ne_empty c
  ext
  · simp [Status.errorStatus, set_code]
  · simp [Status.errorStatus, set_success]
  · simp [Status.errorStatus, set_message, h1, strOptTruthy, h2]
  · simp [Status.errorStatus, set_payload, optTruthy]

theorem successStatus_fields (s : Status) (n : Int) (p : Option JsonValue) :
    s.successStatus n p =
      { code := n, success := true
        message := if strOptTruthy (statusMessageFor n) then
          (statusMessageFor n).getD "" else s.message
        payload := if optTruthy p then p.getD JsonValue.null
          else s.payload } := by
  ext
  · simp [Status.successStatus, set_code]
  · simp [Status.successStatus, set_success]
  · simp [Status.successStatus, set_message]
  · simp [Status.successStatus, set_payload]

theorem successOK_fields (s : Status) (m : Option String)
    (p : Option JsonValue) :
    s.successOK m p =
      { code := 200, success := true
        message := if strOptTruthy m then m.getD "" else s.message
        payload := if optTruthy p then p.getD JsonValue.null
          else s.payload } := by
  ext
  · simp [Status.successOK, set_code, StatusCode.toCode]
  · simp [Status.successOK, set_success]
  · simp [Status.successOK, set_message]
  · simp [Status.successOK, set_payload]

theorem errorStatusInt_fields (s : Status) (n : Int) :
    s.errorStatus n =
      { code := n, success := false
        message := if strOptTruthy (statusMessageFor n) then
          (statusMessageFor n).getD "" else s.message
        payload := JsonValue.null } := by
  ext
  · simp [Status.errorStatus, set_code]
  · simp [Status.errorStatus, set_success]
  · simp [Status.errorStatus, set_message]
  · simp [Status.errorStatus, set_payload, optTruthy]

theorem error_fields (s : Status) (e : IHttpError) :
    s.error e =
      { code := e.code, success := false
        message := if e.message = "" then s.message else e.message
        payload := JsonValue.null } := by
  ext
  · simp [Status.error, set_code]
  · simp [Status.error, set_success]
  · simp [Status.error, set_message, strOptTruthy]
  · simp [Status.error, set_payload, optTruthy]

theorem genericError_fields (s : Status) (msg : String) :
    s.genericError msg =
      { code := 500, success := false
        message := if msg = "" then s.message else msg
        payload := JsonValue.null } := by
  ext
  · simp [Status.genericError, set_code, StatusCode.toCode]
  · simp [Status.genericError, set_success]
  · simp [Status.genericError, set_message, strOptTruthy]
  · simp [Status.genericError, set_payload, optTruthy]

/-! ### Claim theorems -/

/-- C1: for every `StatusCode` `c`, payload argument `p` and starting
state `s`, `successStatus(c, p)` sets `code` to `c`, `success` to `true`,
`message` to the catalog default message for `c`, and overwrites
`payload` with `p` exactly when `p` is truthy; a falsy or absent `p`
(zero, empty string, false, null, absent) leaves the previous payload
unchanged. -/
theorem successStatus_effects (c : StatusCode) (p : Option JsonValue)
    (s : Status) :
    (s.successStatus c.toCode p).code = c.toCode ∧
    (s.successStatus c.toCode p).success = true ∧
    (s.successStatus c.toCode p).message = defaultMessage c ∧
    (s.successStatus c.toCode p).payload =
      (if optTruthy p then p.getD JsonValue.null else s.payload) := by
  have h1 := msg_lookup_hits c
  have h2 := defaultMessage_ne_empty c
  refine ⟨?_, ?_, ?_, ?_⟩
  · simp [Status.successStatus, set_code]
  · simp [Status.successStatus, set_success]
  · simp [Status.successStatus, set_message, h1, strOptTruthy, h2]
  · simp [Status.successStatus, set_payload]

/-- C2: for every catalog `StatusCode` `c` and starting state `s`,
`errorStatus(c)` sets `code` to `c`, `success` to `false`, clears
`payload` to null unconditionally, and sets `message` to the catalog
default for `c`; in particular `errorStatus(NOT_FOUND)` yields
`{code := 404, success := false, message := "Resource not found.",
payload := null}`. -/
theorem errorStatus_effects (c : StatusCode) (s : Status) :
    (s.errorStatus c.toCode =
      { code := c.toCode, success := false, message := defaultMessage c,
        payload := JsonValue.null }) ∧
    (s.errorStatus StatusCode.NOT_FOUND.toCode =
      { code := 404, success := false, message := "Resource not found.",
        payload := JsonValue.null }) := by
  refine ⟨errorStatus_fields s c, ?_⟩
  rw [errorStatus_fields s StatusCode.NOT_FOUND]
  rfl

/-- C3: the `StatusMessages` catalog is total over the `StatusCode`
enumeration: every enum member has exactly one entry in the catalog, the
runtime lookup with its numeric value hits, and the entry is a non-empty
string. -/
theorem statusMessages_total (c : StatusCode) :
    (statusMessagesList.filter (fun e => e.1 == c.toCode)).length = 1 ∧
    statusMessageFor c.toCode = some (defaultMessage c) ∧
    defaultMessage c ≠ "" := by
  refine ⟨?_, msg_lookup_hits c, defaultMessage_ne_empty c⟩
  cases c <;> rfl

/-- C4 (counterexample): `error` is a populating operation that accepts
any custom error, yet `error({code := 700, message := "boom"})` on a
fresh instance leaves `code = 700`, which is not a valid HTTP status
code (100–599); so it is false that after any populating operation, for
every argument it accepts, the `code` field is a valid HTTP status
code. -/
theorem code_validity_counterexample :
    ((Status.new).error ⟨700, "boom"⟩).code = 700 ∧
    ¬ isValidHttpCode ((Status.new).error ⟨700, "boom"⟩).code := by
  constructor
  · rfl
  · rw [error_fields]
    decide

/-- C4 (amended): after `successStatus`, `successOK`, `errorStatus`,
`genericError`, `SUCCESS` or `ERR`, applied with catalog `StatusCode`
arguments where a code is taken, the `code` field is a valid HTTP status
code (100–599); `error` copies the caller-supplied code verbatim and so
yields a valid code exactly when the custom error's own code is valid. -/
theorem code_valid_after_ops (c : StatusCode) (s : Status)
    (p : Option JsonValue) (m : Option String) (msg : String)
    (v : JsonValue) (e : IHttpError) :
    isValidHttpCode (s.successStatus c.toCode p).code ∧
    isValidHttpCode (s.successOK m p).code ∧
    isValidHttpCode (s.errorStatus c.toCode).code ∧
    isValidHttpCode (s.genericError msg).code ∧
    isValidHttpCode (Status.SUCCESS c.toCode v).code ∧
    isValidHttpCode (Status.ERR c.toCode).code ∧
    (isValidHttpCode e.code ↔ isValidHttpCode ((s.error e).code)) := by
  have hv := toCode_valid c
  refine ⟨?_, ?_, ?_, ?_, ?_, ?_, ?_⟩
  · simpa [successStatus_fields] using hv
  · simp [successOK_fields]; decide
  · simpa [errorStatusInt_fields] using hv
  · simp [genericError_fields]; decide
  · simpa [Status.SUCCESS, successStatus_fields] using hv
  · simpa [Status.ERR, errorStatusInt_fields] using hv
  · rw [error_fields]

/-- C4 amended, witness at concrete inputs: a custom error with the
valid code 401 yields a valid code. -/
theorem code_valid_after_ops_witness :
    isValidHttpCode (((Status.new).error ⟨401, "x"⟩).code) :=
  (code_valid_after_ops StatusCode.OK Status.new none none "m"
    JsonValue.null ⟨401, "x"⟩).2.2.2.2.2.2.mp (by decide)

/-- C5: for every custom error `e` (integer `code`, string `message`) and
starting state `s`, `error(e)` sets `code` to `e.code` verbatim,
`success` to `false`, `payload` to null, and `message` to `e.message`
exactly when it is non-empty (an empty message leaves the prior message
unchanged); in particular `error({code := 401, message := "no token"})`
yields `{code := 401, success := false, message := "no token",
payload := null}`. -/
theorem error_effects (e : IHttpError) (s : Status) :
    (s.error e =
      { code := e.code, success := false
        message := if e.message = "" then s.message else e.message
        payload := JsonValue.null }) ∧
    (s.error ⟨401, "no token"⟩ =
      { code := 401, success := false, message := "no token"
        payload := JsonValue.null }) := by
  refine ⟨error_fields s e, ?_⟩
  rw [error_fields]
  rfl

/-- C6: for every message `msg` and starting state `s`,
`genericError` sets `code` to 500 always, `success` to `false`,
`payload` to null, and `message` to `msg` exactly when it is non-empty;
in particular `genericError({message := "boom"})` yields
`{code := 500, success := false, message := "boom", payload := null}`. -/
theorem genericError_effects (msg : String) (s : Status) :
    (s.genericError msg =
      { code := 500, success := false
        message := if msg = "" then s.message else msg
        payload := JsonValue.null }) ∧
    (s.genericError "boom" =
      { code := 500, success := false, message := "boom"
        payload := JsonValue.null }) := by
  refine ⟨genericError_fields s msg, ?_⟩
  rw [genericError_fields]
  rfl

/-- C7: each populating operation is idempotent: for every starting
state and every choice of arguments, applying the same operation twice
with identical arguments yields the same value object as applying it
once. -/
theorem populate_idempotent (s : Status) (n : Int) (p : Option JsonValue)
    (m : Option String) (e : IHttpError) (msg : String) :
    (s.successStatus n p).successStatus n p = s.successStatus n p ∧
    (s.successOK m p).successOK m p = s.successOK m p ∧
    (s.errorStatus n).errorStatus n = s.errorStatus n ∧
    (s.error e).error e = s.error e ∧
    (s.genericError msg).genericError msg = s.genericError msg := by
  refine ⟨?_, ?_, ?_, ?_, ?_⟩ <;>
    simp only [successStatus_fields, successOK_fields, errorStatusInt_fields,
      error_fields, genericError_fields] <;>
    split_ifs <;> rfl

/-- C8: `Status.SUCCESS(c, p)` returns exactly the value object obtained
by constructing a fresh instance and calling `successStatus(c, p)` on
it, and `Status.ERR(c)` returns exactly a fresh instance with
`errorStatus(c)` applied; concretely, `Status.SUCCESS(OK, {a: 1})`
evaluates to `{code := 200, success := true,
message := "Request succeeded.", payload := {a: 1}}`. -/
theorem static_factories_equiv (c : StatusCode) (p : JsonValue) :
    Status.SUCCESS c.toCode p =
      (Status.new).successStatus c.toCode (some p) ∧
    Status.ERR c.toCode = (Status.new).errorStatus c.toCode ∧
    Status.SUCCESS StatusCode.OK.toCode
        (JsonValue.obj [("a", JsonValue.num 1)]) =
      { code := 200, success := true, message := "Request succeeded."
        payload := JsonValue.obj [("a", JsonValue.num 1)] } :=
  ⟨rfl, rfl, rfl⟩

theorem lookup_eq_none_of_forall (n : Int) (l : List (Int × String))
    (h : ∀ q ∈ l, q.1 ≠ n) : l.lookup n = none := by
  induction l with
  | nil => rfl
  | cons a t ih =>
    have ha : (n == a.1) = false :=
      beq_eq_false_iff_ne.mpr
        (fun hn => h a (List.mem_cons_self a t) hn.symm)
    have ht : ∀ q ∈ t, q.1 ≠ n := fun q hq => h q (List.mem_cons_of_mem a hq)
    simp [List.lookup, ha, ih ht]

theorem catalog_keys_are_enum_codes :
    ∀ q ∈ statusMessagesList, ∃ c : StatusCode, StatusCode.toCode c = q.1 := by
  decide

/-- C9: for every numeric code `n` that is not the value of any
`StatusCode` member, and every starting state `s`, `errorStatus(n)`
still sets `code` to `n`, `success` to `false` and `payload` to null,
but the catalog lookup misses and `message` is left at its previous
value. -/
theorem errorStatus_noncatalog (s : Status) (n : Int)
    (h : ∀ c : StatusCode, StatusCode.toCode c ≠ n) :
    statusMessageFor n = none ∧
    s.errorStatus n =
      { code := n, success := false, message := s.message
        payload := JsonValue.null } := by
  have hmiss : statusMessageFor n = none := by
    refine lookup_eq_none_of_forall n statusMessagesList ?_
    intro q hq
    obtain ⟨c, hc⟩ := catalog_keys_are_enum_codes q hq
    rw [← hc]
    exact h c
  refine ⟨hmiss, ?_⟩
  rw [errorStatusInt_fields, hmiss]
  rfl

/-- C9 witness: the non-catalog code 999 misses the catalog and leaves
the fresh instance's (empty) message untouched. -/
theorem errorStatus_noncatalog_witness :
    statusMessageFor 999 = none ∧
    (Status.new).errorStatus 999 =
      { code := 999, success := false, message := (Status.new).message
        payload := JsonValue.null } :=
  errorStatus_noncatalog Status.new 999 (by decide)

/-- A populating operation together with its arguments, for stating
reachability over arbitrary call sequences. -/
inductive PopOp where
  | successStatus (code : Int) (payload : Option JsonValue)
  | successOK (message : Option String) (payload : Option JsonValue)
  | errorStatus (code : Int)
  | error (err : IHttpError)
  | genericError (msg : String)

/-- Apply one populating operation to a state. -/
def applyOp (s : Status) : PopOp → Status
  | .successStatus c p => s.successStatus c p
  | .successOK m p => s.successOK m p
  | .errorStatus c => s.errorStatus c
  | .error e => s.error e
  | .genericError m => s.genericError m

/-- Run a sequence of populating operations from a state. -/
def runOps (s : Status) (ops : List PopOp) : Status :=
  ops.foldl applyOp s

theorem applyOp_inv (s : Status) (op : PopOp) :
    (applyOp s op).success = false →
    (applyOp s op).payload = JsonValue.null := by
  cases op <;>
    simp [applyOp, successStatus_fields, successOK_fields,
      errorStatusInt_fields, error_fields, genericError_fields]

theorem runOps_inv (ops : List PopOp) (s : Status)
    (h : s.success = false → s.payload = JsonValue.null) :
    (runOps s ops).success = false →
    (runOps s ops).payload = JsonValue.null := by
  induction ops generalizing s with
  | nil => exact h
  | cons op t ih => exact ih (applyOp s op) (applyOp_inv s op)

/-- C10: in every state reachable from a freshly constructed value
object by any sequence of populating operations with any arguments, if
`success` is `false` then `payload` is null. -/
theorem reachable_success_false_payload_null (ops : List PopOp)
    (h : (runOps Status.new ops).success = false) :
    (runOps Status.new ops).payload = JsonValue.null :=
  runOps_inv ops Status.new (fun _ => rfl) h

/-- C10 witness: after the sequence `[errorStatus 404]` the success flag
is `false` and the payload is null. -/
theorem reachable_success_false_payload_null_witness :
    (runOps Status.new [PopOp.errorStatus 404]).success = false ∧
    (runOps Status.new [PopOp.errorStatus 404]).payload = JsonValue.null :=
  ⟨rfl, reachable_success_false_payload_null [PopOp.errorStatus 404] rfl⟩
